import Mathlib

/-!
Verification of the `mq` command-line tool (POSIX message queue shell utility)
against its natural-language specification.

The repository holds two revisions of `mq.c`:
* revision 1: `src/mq.c`
* revision 2: `src/src/mq.c` (the later one, with the Framer
  `write_msg_with_delimiter` and the `LOG_ERR` / `LOG_VERBOSE` macros).

Bytes are modelled as `Nat` (values 0–255 in all uses), byte strings as
`List Nat`, and the outcome of each `write(2)` call as an explicit element of
a schedule list, so that short-write behaviour can be quantified over.
-/

/-- Outcome of one `write(2)` call on the output stream: the kernel transfers
`k` bytes (`ok k`, with the real kernel guaranteeing `k ≤` the requested
count, enforced here by clamping), or the call fails (`err`, write returns -1). -/
inductive WriteOutcome where
  | ok (k : Nat)
  | err
  deriving DecidableEq, Repr

/-- Result of running the Framer (or its inner payload loop) against a
schedule of write outcomes: `done out rest` means the code completed having
written the bytes `out` to the output stream with `rest` the unconsumed
schedule; `fatal out` means the code called `exit(1)` after writing `out`;
`stuck out` means the schedule ran out before the code finished (the
behaviour is not determined by the given schedule). -/
inductive FramerResult where
  | done (out : List Nat) (rest : List WriteOutcome)
  | fatal (out : List Nat)
  | stuck (out : List Nat)
  deriving DecidableEq, Repr

/-- The payload do-while loop of `write_msg_with_delimiter`
(src/src/mq.c lines 286–295):

    size_t messageRemainingBytes = sz;
    do {
      ssize_t messageWrittenBytes = write(1, buffer, messageRemainingBytes);
      if (messageWrittenBytes == -1) { LOG_ERR(...); exit(1); }
      else { messageRemainingBytes -= (size_t)messageWrittenBytes; }
    } while (messageRemainingBytes > 0);

Note the faithful embedding of the source: the `buffer` pointer is never
advanced, so every iteration writes from the start of the buffer
(`buffer.take t`), while only the remaining count shrinks. -/
def writeAll (buffer : List Nat) (remaining : Nat) (sched : List WriteOutcome) :
    FramerResult :=
  match sched with
  | [] => .stuck []
  | .err :: _ => .fatal []
  | .ok k :: rest =>
    let t := min k remaining
    let out := buffer.take t
    let remaining2 := remaining - t
    if remaining2 > 0 then
      match writeAll buffer remaining2 rest with
      | .done w r => .done (out ++ w) r
      | .fatal w => .fatal (out ++ w)
      | .stuck w => .stuck (out ++ w)
    else .done out rest

/-- `write_msg_with_delimiter` (src/src/mq.c lines 284–306): runs the payload
loop, then, when `args->delimiter != 'x'` (byte 120), writes the single
delimiter byte, treating a -1 return as fatal and a return other than 1 as
fatal as well. The delimiter byte is 10 for specifier `n` and 0 for `z`,
as set by `parse_opt`. -/
def write_msg_with_delimiter (delimiter : Nat) (buffer : List Nat)
    (sched : List WriteOutcome) : FramerResult :=
  match writeAll buffer buffer.length sched with
  | .fatal w => .fatal w
  | .stuck w => .stuck w
  | .done w rest =>
    if delimiter ≠ 120 then
      match rest with
      | [] => .stuck w
      | .err :: _ => .fatal w
      | .ok k :: r2 =>
        if min k 1 = 1 then .done (w ++ [delimiter]) r2
        else .fatal w
    else .done w rest

/-- One hexadecimal digit character, lowercase, as produced by `printf("%02x")`. -/
def hexDigit (n : Nat) : Nat := if n < 10 then 48 + n else 87 + n

/-- The two characters `printf("%02x", b)` prints for a byte. -/
def hexByte (b : Nat) : List Nat := [hexDigit (b / 16), hexDigit (b % 16)]

/-- Helper for `print_hexa`: from the second byte on, each byte is preceded
by one space character (byte 32). -/
def hexTail : List Nat → List Nat
  | [] => []
  | b :: rest => 32 :: (hexByte b ++ hexTail rest)

/-- `print_hexa` (src/src/mq.c lines 47–53): the characters printed for a
buffer, `"%02x"` per byte, space-separated. All of it goes through `printf`,
i.e. to standard output. -/
def print_hexa : List Nat → List Nat
  | [] => []
  | b :: rest => hexByte b ++ hexTail rest

/-- `LOG_VERBOSE_HEXA` (src/src/mq.c lines 65–70): when verbose is set,
prints `get_timestamp()`, a space, the hex dump and a newline — all via
`printf`, hence on standard output. `ts` stands for the bytes
`get_timestamp()` returns at that moment. -/
def LOG_VERBOSE_HEXA_out (verbose : Bool) (ts buffer : List Nat) : List Nat :=
  if verbose then ts ++ [32] ++ print_hexa buffer ++ [10] else []

/-- Modelled from the spec: the kernel-managed POSIX message queue, which is
not part of this repository's sources (the code only calls `mq_open`,
`mq_send`, `mq_receive`, `mq_getattr`). Per spec §3, it is a
FIFO-with-priority channel with attributes
`max_messages` / `max_message_size` and a current message list. -/
structure MsgQueue where
  max_messages : Nat
  max_message_size : Nat
  messages : List (List Nat × Nat)
  deriving DecidableEq, Repr

/-- Errors of the modelled kernel queue operations. -/
inductive MqErr where
  | wouldBlock
  | msgTooBig
  deriving DecidableEq, Repr

/-- Modelled from the spec: FIFO-with-priority insertion — a new message is
placed after every queued message of priority greater than or equal to its
own (higher priority first, FIFO among equals). -/
def insertByPrio (m : List Nat × Nat) : List (List Nat × Nat) → List (List Nat × Nat)
  | [] => [m]
  | x :: xs => if m.2 ≤ x.2 then x :: insertByPrio m xs else m :: x :: xs

/-- Modelled from the spec: `mq_send` in its immediate (non-suspending) form,
as the tool observes it. Per spec §4.2: with blocking disabled a send on a
full queue (`max_messages` reached) fails at once with `WouldBlock` and
mutates nothing; a payload longer than `max_message_size` is rejected;
otherwise the payload is enqueued whole. -/
def mq_send_model (q : MsgQueue) (payload : List Nat) (prio : Nat) :
    Except MqErr MsgQueue :=
  if q.max_message_size < payload.length then .error .msgTooBig
  else if q.max_messages ≤ q.messages.length then .error .wouldBlock
  else .ok { q with messages := insertByPrio (payload, prio) q.messages }

/-- Modelled from the spec: `mq_receive` in its immediate form. Per spec
§4.3: on an empty queue it fails at once with `WouldBlock` (non-blocking
mode); otherwise it removes and returns the front message (payload and
priority) whole, its length being ≤ `max_message_size` by the kernel
contract. -/
def mq_receive_model (q : MsgQueue) :
    Except MqErr ((List Nat × Nat) × MsgQueue) :=
  match q.messages with
  | [] => .error .wouldBlock
  | m :: rest => .ok (m, { q with messages := rest })

/-- Result of one command execution of revision 2: `ret code stdout q` is a
normal return with the command's return value, the bytes written to standard
output and the resulting queue state; `exited code stdout` is a process
`exit(1)` from inside the Framer (reached without closing the handle);
`stuck stdout` means the write-outcome schedule ran out. -/
inductive CmdResult where
  | ret (code : Int) (stdout : List Nat) (q : MsgQueue)
  | exited (code : Int) (stdout : List Nat)
  | stuck (stdout : List Nat)
  deriving DecidableEq, Repr

/-- The standard-output bytes of a command result. -/
def cmdStdout : CmdResult → List Nat
  | .ret _ s _ => s
  | .exited _ s => s
  | .stuck s => s

/-- `cmd_send` of revision 2 (src/src/mq.c lines 244–267) over the modelled
queue: open failure returns 1; otherwise one `mq_send` of `args->message`
(`args->msglen` bytes) at `args->priority`; a send failure sets the return
value to 1 and is not retried; the handle is closed and the return value
returned. The pair is (return value, resulting queue). -/
def cmd_send_run (openOk : Bool) (q : MsgQueue) (message : List Nat)
    (priority : Nat) : Int × MsgQueue :=
  if !openOk then (1, q)
  else
    match mq_send_model q message priority with
    | .ok q2 => (0, q2)
    | .error _ => (1, q)

/-- `cmd_recv` of revision 2 (src/src/mq.c lines 308–340) over the modelled
queue: open failure or `mq_getattr` failure returns 1; a receive failure
(`n < 0`) returns 1; on `n >= 0` (a zero-length payload included) the verbose
hex dump is printed — via `printf`, to standard output — and
`write_msg_with_delimiter` runs against the write-outcome schedule, after
which the command returns 0. -/
def cmd_recv_impl (openOk getattrOk : Bool) (verbose : Bool) (ts : List Nat)
    (delimiter : Nat) (q : MsgQueue) (sched : List WriteOutcome) : CmdResult :=
  if !openOk then .ret 1 [] q
  else if !getattrOk then .ret 1 [] q
  else
    match mq_receive_model q with
    | .error _ => .ret 1 [] q
    | .ok (m, q2) =>
      let v := LOG_VERBOSE_HEXA_out verbose ts m.1
      match write_msg_with_delimiter delimiter m.1 sched with
      | .done w _ => .ret 0 (v ++ w) q2
      | .fatal w => .exited 1 (v ++ w)
      | .stuck w => .stuck (v ++ w)

/-- The `POLLIN` readiness flag bit (value 0x001 on Linux). -/
def POLLIN : Nat := 1

/-- Outcome of one `poll(ufds, 1, -1)` call in `cmd_recv_follow`:
`perr` is a -1 return, `ready revents` is a return of 1 together with the
revents bits of the single watched descriptor, and `other rv` is any other
return value (the `else` branch of the source, e.g. 0). -/
inductive PollOutcome where
  | perr
  | ready (revents : Nat)
  | other (rv : Int)
  deriving DecidableEq, Repr

/-- What one Follow Loop iteration does after its poll call returns:
proceed to `mq_receive` (`recvMsg`), log and re-enter the wait (`retry`),
or leave the loop (`exitLoop`, the `break` statements). -/
inductive LoopAction where
  | recvMsg
  | retry
  | exitLoop
  deriving DecidableEq, Repr

/-- The readiness-wait dispatch of `cmd_recv_follow` (src/src/mq.c lines
366–390): a poll return of -1 only logs `"poll error"` and falls through to
the next iteration (no `break`); a return of 1 receives when
`revents & POLLIN` is non-zero and breaks otherwise; any other return value
only logs `"poll error(2)"` and likewise falls through. -/
def followPollStep : PollOutcome → LoopAction
  | .perr => .retry
  | .ready revents => if Nat.land revents POLLIN ≠ 0 then .recvMsg else .exitLoop
  | .other _ => .retry

/-- Outcome of one `mq_receive` call inside the Follow Loop: a message with
its payload bytes, or a failure (`n < 0`). -/
inductive RecvOutcome where
  | msg (payload : List Nat)
  | rerr
  deriving DecidableEq, Repr

/-- State of the Follow Loop after consuming a finite schedule of iteration
outcomes: `running emitted` means the loop is still inside `while (1)` with
the payloads emitted so far, `exited emitted` means it reached a `break` and
`cmd_recv_follow` returns 1 after `mq_close`. -/
inductive FollowResult where
  | running (emitted : List (List Nat))
  | exited (emitted : List (List Nat))
  deriving DecidableEq, Repr

/-- The `while (1)` loop of `cmd_recv_follow`, driven by a schedule pairing
each iteration's poll outcome with its receive outcome (the receive outcome
is consulted only when the poll outcome leads to `mq_receive`). Emitted
payloads are collected in order; Framer writes are taken as complete here
(the Framer's own short-write behaviour is analysed separately). -/
def followLoop : List (PollOutcome × RecvOutcome) → FollowResult
  | [] => .running []
  | (p, r) :: rest =>
    match followPollStep p with
    | .retry => followLoop rest
    | .exitLoop => .exited []
    | .recvMsg =>
      match r with
      | .rerr => .exited []
      | .msg payload =>
        match followLoop rest with
        | .running es => .running (payload :: es)
        | .exited es => .exited (payload :: es)

/-- The return value of `cmd_recv` of revision 1 (src/mq.c lines 241–270):
`ret = mq_receive(...)` is overwritten with 0 only when `ret >= 0`; there is
no `else` branch, so after `mq_close` the function returns `mq_receive`'s
own return value — that is, -1 — on a receive failure. `n` is the value
`mq_receive` returned. -/
def cmd_recv_v1_ret (openOk getattrOk : Bool) (n : Int) : Int :=
  if !openOk then 1
  else if !getattrOk then 1
  else if 0 ≤ n then 0
  else n

/-- Queue-handle lifecycle events of one command execution. -/
inductive MqEvent where
  | openOk
  | openFail
  | closeEv
  deriving DecidableEq, Repr

/-- Handle events of `cmd_create` (identical in both revisions, src/src/mq.c
lines 186–205): `mq_open(O_CREAT|O_RDWR|O_EXCL)` either fails (return 1) or
succeeds (return 0) — no `mq_close` appears on any path. -/
def cmd_create_events (openSucceeds : Bool) : List MqEvent :=
  if openSucceeds then [.openOk] else [.openFail]

/-- Handle events of `cmd_info`: on a successful open, `mq_close` runs on
both the `mq_getattr` failure path and the success path. -/
def cmd_info_events (openSucceeds getattrSucceeds : Bool) : List MqEvent :=
  if openSucceeds then
    match getattrSucceeds with
    | true => [.openOk, .closeEv]
    | false => [.openOk, .closeEv]
  else [.openFail]

/-- Handle events of `cmd_send`: on a successful open, `mq_close` runs
whether or not `mq_send` succeeded. -/
def cmd_send_events (openSucceeds sendSucceeds : Bool) : List MqEvent :=
  if openSucceeds then
    match sendSucceeds with
    | true => [.openOk, .closeEv]
    | false => [.openOk, .closeEv]
  else [.openFail]

/-- Handle events of `cmd_recv` (revision 2): each returning path after a
successful open passes through `mq_close`, but when the Framer hits a write
error it calls `exit(1)` directly, so the process ends with the handle still
open (`framerFatal`, relevant only on the `n >= 0` branch). -/
def cmd_recv_events (openSucceeds getattrSucceeds recvSucceeds framerFatal : Bool) :
    List MqEvent :=
  if !openSucceeds then [.openFail]
  else if !getattrSucceeds then [.openOk, .closeEv]
  else if !recvSucceeds then [.openOk, .closeEv]
  else if framerFatal then [.openOk]
  else [.openOk, .closeEv]

/-- Handle events of `cmd_recv_follow`: the loop's `break` paths fall
through to `mq_close`, but a Framer `exit(1)` ends the process with the
handle still open. -/
def cmd_recv_follow_events (openSucceeds getattrSucceeds framerFatal : Bool) :
    List MqEvent :=
  if !openSucceeds then [.openFail]
  else if !getattrSucceeds then [.openOk, .closeEv]
  else if framerFatal then [.openOk]
  else [.openOk, .closeEv]

/-- The scalar fields of `struct arguments` (src/src/mq.c lines 113–134);
`delimiter` holds the actual byte (`'\n'` = 10, `'\0'` = 0, `'x'` = 120). -/
structure struct_arguments where
  verbose : Bool
  maxmsg : Nat
  msgsize : Nat
  timestamp : Bool
  blocking : Bool
  follow : Bool
  priority : Nat
  delimiter : Nat
  deriving DecidableEq, Repr

/-- The default values `main` assigns before parsing (src/src/mq.c lines
401–413): `maxmsg = 10`, `msgsize = 1024`, blocking on, delimiter `'\n'`. -/
def main_defaults : struct_arguments :=
  { verbose := false, maxmsg := 10, msgsize := 1024, timestamp := false,
    blocking := true, follow := false, priority := 0, delimiter := 10 }

/-- The `struct mq_attr` fields the tool uses. -/
structure mq_attr where
  mq_flags : Nat
  mq_maxmsg : Nat
  mq_msgsize : Nat
  mq_curmsgs : Nat
  deriving DecidableEq, Repr

/-- The attribute block `cmd_create` hands to `mq_open` (src/src/mq.c lines
186–192): flags 0, `mq_maxmsg` and `mq_msgsize` from the arguments,
`mq_curmsgs` 0. -/
def cmd_create_attr (args : struct_arguments) : mq_attr :=
  { mq_flags := 0, mq_maxmsg := args.maxmsg, mq_msgsize := args.msgsize,
    mq_curmsgs := 0 }

/-- C `strlen` on a byte buffer: the number of bytes before the first NUL. -/
def strlen (s : List Nat) : Nat := (s.takeWhile (fun b => b != 0)).length

/-- The in-memory bytes of the argv string holding the message: the message
bytes followed by the terminating NUL. -/
def cstr (message : List Nat) : List Nat := message ++ [0]

/-- The bytes revision 1's `cmd_send` enqueues (src/mq.c lines 207–208):
`mq_send(queue, args->message, strlen(args->message)+1, ...)` — the comment
reads `/* Send and keep the null terminating char */`. -/
def cmd_send_v1_payload (message : List Nat) : List Nat :=
  (cstr message).take (strlen (cstr message) + 1)

/-- The bytes revision 2's `cmd_send` enqueues (src/src/mq.c lines 258–259
with `args->msglen = strlen(arg)` from `parse_opt`, line 167):
`mq_send(queue, args->message, args->msglen, ...)`. -/
def cmd_send_v2_payload (message : List Nat) : List Nat :=
  (cstr message).take (strlen (cstr message))

/-- When the first write call transfers the whole payload, the payload loop
completes having written exactly the payload. -/
theorem writeAll_complete (payload : List Nat) (rest : List WriteOutcome) :
    writeAll payload payload.length (.ok payload.length :: rest)
      = .done payload rest := by
  simp [writeAll]

/-- When every write call transfers everything requested, the Framer writes
the payload followed by the single delimiter byte (delimiter not `'x'`). -/
theorem framer_complete (delimiter : Nat) (payload : List Nat)
    (hd : delimiter ≠ 120) :
    write_msg_with_delimiter delimiter payload [.ok payload.length, .ok 1]
      = .done (payload ++ [delimiter]) [] := by
  simp [write_msg_with_delimiter, writeAll_complete, hd]

/-- C `strlen` of the argv buffer of a message without interior NUL bytes is
the message length. -/
theorem strlen_cstr (message : List Nat) (h : ∀ b ∈ message, b ≠ 0) :
    strlen (cstr message) = message.length := by
  induction message with
  | nil => rfl
  | cons b rest ih =>
    have hb : (b != 0) = true := by
      simpa using h b (List.mem_cons_self b rest)
    have ih2 := ih (fun x hx => h x (List.mem_cons_of_mem _ hx))
    simp only [cstr, List.cons_append, strlen, List.takeWhile_cons, hb,
      if_true, List.length_cons] at ih2 ⊢
    omega

/-- C1: the Framer does not write the payload bytes in order exactly once
under short writes. For payload `[1, 2]` and a schedule where each write
call transfers one byte, `write_msg_with_delimiter` (delimiter `'\n'` = 10)
emits `[1, 1, 10]`: the first byte twice and the second byte never, because
the source subtracts the written count but never advances the buffer
pointer. The claimed output would have been `[1, 2, 10]`. -/
theorem write_msg_short_write_repeats_bytes :
    write_msg_with_delimiter 10 [1, 2] [.ok 1, .ok 1, .ok 1]
      = .done [1, 1, 10] []
    ∧ [1, 1, 10] ≠ ([1, 2, 10] : List Nat) := by
  exact ⟨by decide, by decide⟩

/-- C2 (counterexample): a readiness-wait error does not terminate the
Follow Loop — `poll` returning -1 is only logged and the loop re-enters the
wait, as shown by a run that hits a poll error and then still emits the next
message; and a wake whose revents sets a flag in addition to `POLLIN`
(here revents = 3) proceeds to receive rather than terminating. -/
theorem follow_poll_error_not_fatal :
    followPollStep .perr = .retry
    ∧ followLoop [(.perr, .rerr), (.ready 1, .msg [97])] = .running [[97]]
    ∧ followPollStep (.ready 3) = .recvMsg := by
  exact ⟨by decide, by decide, by decide⟩

/-- C2 (amended): in the Follow Loop, only a wake reporting readiness whose
revents lacks the `POLLIN` bit terminates the loop, and a receive error
after a positive readiness signal terminates the loop; a readiness-wait
error (`poll` returning -1) or an unexpected return count is logged and the
wait is re-entered, and revents with `POLLIN` set (extra flags included)
proceeds to receive. -/
theorem follow_loop_wait_dispatch :
    (∀ revents : Nat, Nat.land revents POLLIN = 0 →
      followPollStep (.ready revents) = .exitLoop)
    ∧ (∀ revents : Nat, Nat.land revents POLLIN ≠ 0 →
      followPollStep (.ready revents) = .recvMsg)
    ∧ followPollStep .perr = .retry
    ∧ (∀ rv : Int, followPollStep (.other rv) = .retry)
    ∧ (∀ steps p, followPollStep p = .retry →
      followLoop ((p, .rerr) :: steps) = followLoop steps)
    ∧ (∀ steps p, followPollStep p = .recvMsg →
      followLoop ((p, .rerr) :: steps) = .exited []) := by
  refine ⟨?_, ?_, rfl, fun _ => rfl, ?_, ?_⟩
  · intro revents h
    simp [followPollStep, h]
  · intro revents h
    simp [followPollStep, h]
  · intro steps p h
    simp [followLoop, h]
  · intro steps p h
    simp [followLoop, h]

/-- Witness for the amended C2 theorem at concrete inputs: revents 8 (no
`POLLIN`) exits, revents 9 (`POLLIN` plus another flag) receives, an
unexpected poll return of 0 is retried, and a receive error exits. -/
theorem follow_loop_wait_dispatch_witness :
    followPollStep (.ready 8) = .exitLoop
    ∧ followPollStep (.ready 9) = .recvMsg
    ∧ followLoop [(.other 0, .rerr)] = followLoop []
    ∧ followLoop [(.ready 1, .rerr)] = .exited [] :=
  ⟨follow_loop_wait_dispatch.1 8 (by decide),
   follow_loop_wait_dispatch.2.1 9 (by decide),
   follow_loop_wait_dispatch.2.2.2.2.1 [] (.other 0)
     (follow_loop_wait_dispatch.2.2.2.1 0),
   follow_loop_wait_dispatch.2.2.2.2.2 [] (.ready 1)
     (follow_loop_wait_dispatch.2.1 1 (by decide))⟩

/-- C3: round-trip — on an empty queue with room, a send of any payload of
length ≤ `max_message_size` (embedded NUL bytes allowed) followed by a recv
on the same queue returns 0 and writes to standard output exactly the
original bytes, then the delimiter byte (delimiter not `'x'`). -/
theorem send_recv_round_trip (q : MsgQueue) (payload : List Nat)
    (prio delimiter : Nat)
    (hempty : q.messages = [])
    (hlen : payload.length ≤ q.max_message_size)
    (hroom : 0 < q.max_messages)
    (hd : delimiter ≠ 120) :
    cmd_send_run true q payload prio
      = (0, { q with messages := [(payload, prio)] })
    ∧ cmd_recv_impl true true false [] delimiter
        { q with messages := [(payload, prio)] } [.ok payload.length, .ok 1]
      = .ret 0 (payload ++ [delimiter]) { q with messages := [] } := by
  have h1 : ¬ (q.max_message_size < payload.length) := Nat.not_lt.mpr hlen
  have h3 : q.max_messages ≠ 0 := Nat.pos_iff_ne_zero.mp hroom
  have h2 : ¬ (q.max_messages ≤ q.messages.length) := by
    rw [hempty]
    simpa using h3
  constructor
  · simp [cmd_send_run, mq_send_model, h1, h2, h3, hempty, insertByPrio]
  · simp [cmd_recv_impl, mq_receive_model, LOG_VERBOSE_HEXA_out,
      framer_complete _ _ hd]

/-- Witness for the round-trip theorem: payload `[104, 0, 105]` (an embedded
NUL byte) on a fresh default-sized queue, priority 3, delimiter `'\n'`. -/
theorem send_recv_round_trip_witness :
    cmd_send_run true ⟨10, 1024, []⟩ [104, 0, 105] 3
      = (0, ⟨10, 1024, [([104, 0, 105], 3)]⟩)
    ∧ cmd_recv_impl true true false [] 10 ⟨10, 1024, [([104, 0, 105], 3)]⟩
        [.ok 3, .ok 1]
      = .ret 0 [104, 0, 105, 10] ⟨10, 1024, []⟩ :=
  send_recv_round_trip ⟨10, 1024, []⟩ [104, 0, 105] 3 10 rfl
    (by decide) (by decide) (by decide)

/-- C4: the primary-output bytes of `recv` are not the same with verbose
enabled and disabled — revision 2's `LOG_VERBOSE_HEXA` goes through
`printf`, i.e. to standard output, so for a queued message `[97]` the
verbose run prepends the timestamp, a space, the hex dump `"61"` and a
newline to standard output before the payload, whatever bytes the timestamp
holds. -/
theorem verbose_changes_stdout (ts : List Nat) :
    cmdStdout (cmd_recv_impl true true true ts 10 ⟨10, 1024, [([97], 0)]⟩
        [.ok 1, .ok 1])
    ≠ cmdStdout (cmd_recv_impl true true false ts 10 ⟨10, 1024, [([97], 0)]⟩
        [.ok 1, .ok 1]) := by
  intro h
  have hlen := congrArg List.length h
  simp [cmd_recv_impl, mq_receive_model, LOG_VERBOSE_HEXA_out, print_hexa,
    hexByte, hexDigit, hexTail, write_msg_with_delimiter, writeAll,
    cmdStdout] at hlen

/-- C5: revision 1's `cmd_recv` (src/mq.c) returns `mq_receive`'s own
return value on a receive failure, i.e. -1 — the process exit status is then
255, not the claimed 1 (and not 0). -/
theorem cmd_recv_v1_returns_receive_error :
    cmd_recv_v1_ret true true (-1) = -1
    ∧ ((-1 : Int) ≠ 0 ∧ (-1 : Int) ≠ 1) := by
  exact ⟨by decide, by decide, by decide⟩

/-- C6 (counterexample): `cmd_create`'s success path performs one successful
open and zero closes — the handle created by `mq_open(O_CREAT|...)` is never
passed to `mq_close` before the command returns. -/
theorem cmd_create_never_closes :
    (cmd_create_events true).count .openOk = 1
    ∧ (cmd_create_events true).count .closeEv = 0 := by
  exact ⟨by decide, by decide⟩

/-- C6 (amended): `info`, `send`, `recv` and `recv --follow` close their
successfully opened handle exactly once on every path that returns; `create`
never closes its handle on any path, and a Framer write error exits the
process with the handle still open. -/
theorem close_per_open_discipline :
    (∀ o g : Bool, (cmd_info_events o g).count .closeEv
      = (cmd_info_events o g).count .openOk)
    ∧ (∀ o s : Bool, (cmd_send_events o s).count .closeEv
      = (cmd_send_events o s).count .openOk)
    ∧ (∀ o g r : Bool, (cmd_recv_events o g r false).count .closeEv
      = (cmd_recv_events o g r false).count .openOk)
    ∧ (∀ o g : Bool, (cmd_recv_follow_events o g false).count .closeEv
      = (cmd_recv_follow_events o g false).count .openOk)
    ∧ (∀ o : Bool, (cmd_create_events o).count .closeEv = 0)
    ∧ (cmd_recv_events true true true true).count .closeEv = 0
    ∧ (cmd_recv_follow_events true true true).count .closeEv = 0 := by
  refine ⟨?_, ?_, ?_, ?_, ?_, by decide, by decide⟩ <;> decide

/-- C7: with blocking disabled, a send on a full queue fails with
`WouldBlock` and `cmd_send` reports 1 with the queue contents unchanged, and
a recv on an empty queue fails with `WouldBlock` and `cmd_recv` reports 1;
neither is retried (the commands call the operation once). -/
theorem nonblocking_wouldblock (q qe : MsgQueue) (payload : List Nat)
    (prio : Nat)
    (hfull : q.max_messages ≤ q.messages.length)
    (hsz : payload.length ≤ q.max_message_size)
    (hempty : qe.messages = []) :
    mq_send_model q payload prio = .error .wouldBlock
    ∧ cmd_send_run true q payload prio = (1, q)
    ∧ mq_receive_model qe = .error .wouldBlock
    ∧ cmd_recv_impl true true false [] 10 qe [] = .ret 1 [] qe := by
  have h1 : ¬ (q.max_message_size < payload.length) := Nat.not_lt.mpr hsz
  refine ⟨?_, ?_, ?_, ?_⟩
  · simp [mq_send_model, h1, hfull]
  · simp [cmd_send_run, mq_send_model, h1, hfull]
  · simp [mq_receive_model, hempty]
  · simp [cmd_recv_impl, mq_receive_model, hempty]

/-- Witness for the would-block theorem: a full queue (capacity 1, one
queued message) rejects a fitting payload, and a fresh empty queue rejects a
receive. -/
theorem nonblocking_wouldblock_witness :
    mq_send_model ⟨1, 4, [([5], 0)]⟩ [7] 0 = .error .wouldBlock
    ∧ cmd_send_run true ⟨1, 4, [([5], 0)]⟩ [7] 0 = (1, ⟨1, 4, [([5], 0)]⟩)
    ∧ mq_receive_model ⟨10, 1024, []⟩ = .error .wouldBlock
    ∧ cmd_recv_impl true true false [] 10 ⟨10, 1024, []⟩ []
      = .ret 1 [] ⟨10, 1024, []⟩ :=
  nonblocking_wouldblock ⟨1, 4, [([5], 0)]⟩ ⟨10, 1024, []⟩ [7] 0
    (by decide) (by decide) rfl

/-- C8: a zero-length payload is a success distinct from the no-message
case: `cmd_recv` takes the `n >= 0` branch, invokes the Framer with the
empty payload despite the Framer's stated `sz > 0` precondition, writes zero
payload bytes and then the delimiter byte, and returns 0 — whereas a recv on
an empty queue returns 1 writing nothing. -/
theorem zero_length_recv (q qe : MsgQueue) (prio delimiter : Nat)
    (hq : q.messages = [([], prio)]) (hqe : qe.messages = [])
    (hd : delimiter ≠ 120) :
    cmd_recv_impl true true false [] delimiter q [.ok 0, .ok 1]
      = .ret 0 [delimiter] { q with messages := [] }
    ∧ cmd_recv_impl true true false [] delimiter qe [.ok 0, .ok 1]
      = .ret 1 [] qe := by
  constructor
  · simp [cmd_recv_impl, mq_receive_model, hq, LOG_VERBOSE_HEXA_out,
      write_msg_with_delimiter, writeAll, hd]
  · simp [cmd_recv_impl, mq_receive_model, hqe]

/-- Witness for the zero-length receive theorem: a queue holding one empty
message yields return value 0 and the single newline delimiter byte on
standard output; an empty queue yields return value 1. -/
theorem zero_length_recv_witness :
    cmd_recv_impl true true false [] 10 ⟨10, 1024, [([], 0)]⟩ [.ok 0, .ok 1]
      = .ret 0 [10] ⟨10, 1024, []⟩
    ∧ cmd_recv_impl true true false [] 10 ⟨10, 1024, []⟩ [.ok 0, .ok 1]
      = .ret 1 [] ⟨10, 1024, []⟩ :=
  zero_length_recv ⟨10, 1024, [([], 0)]⟩ ⟨10, 1024, []⟩ 0 10 rfl rfl
    (by decide)

/-- C9: with `main`'s default argument values (no sizing options given),
`cmd_create` asks the kernel for a queue with `mq_maxmsg = 10`,
`mq_msgsize = 1024` and `mq_curmsgs = 0`. -/
theorem create_defaults :
    cmd_create_attr main_defaults
      = { mq_flags := 0, mq_maxmsg := 10, mq_msgsize := 1024,
          mq_curmsgs := 0 } := rfl

/-- C10: for every message without interior NUL bytes, revision 1's send
enqueues the message bytes followed by the terminating NUL
(`strlen(message)+1` bytes) while revision 2's send enqueues exactly the
message bytes (`strlen(message)` bytes): the old payload is the new payload
with one NUL byte appended, so the two revisions are not
payload-equivalent. -/
theorem send_payload_revisions (message : List Nat)
    (h : ∀ b ∈ message, b ≠ 0) :
    cmd_send_v1_payload message = cmd_send_v2_payload message ++ [0]
    ∧ cmd_send_v1_payload message ≠ cmd_send_v2_payload message := by
  have hs := strlen_cstr message h
  have h1 : cmd_send_v1_payload message = message ++ [0] := by
    rw [cmd_send_v1_payload, hs]
    rw [show message.length + 1 = (cstr message).length by simp [cstr]]
    exact List.take_length _
  have h2 : cmd_send_v2_payload message = message := by
    rw [cmd_send_v2_payload, hs, cstr]
    exact List.take_left message [0]
  constructor
  · rw [h1, h2]
  · rw [h1, h2]
    intro hbad
    have := congrArg List.length hbad
    simp at this

/-- Witness for the send-payload theorem at the concrete message
`[104, 105]`. -/
theorem send_payload_revisions_witness :
    cmd_send_v1_payload [104, 105] = cmd_send_v2_payload [104, 105] ++ [0]
    ∧ cmd_send_v1_payload [104, 105] ≠ cmd_send_v2_payload [104, 105] :=
  send_payload_revisions [104, 105] (by decide)

